import Mathlib

set_option maxHeartbeats 1000000

/-!
Shallow embedding of the contact-form relay (src/unnamed/part_000, the
revision of src/index.mjs with the shared toBoolean coercion): the
submission validator, the payload normalisation and serialisation, the
rate-limited request pipeline, and the forward-outcome classification.
-/

deriving instance DecidableEq for Except

namespace Proxy2AM

/-- The JavaScript string method `trim()` modelled structurally on the
character list: leading and trailing whitespace removed. -/
def trimString (s : String) : String :=
  ⟨((s.data.dropWhile Char.isWhitespace).reverse.dropWhile Char.isWhitespace).reverse⟩

/-- The JavaScript string method `toLowerCase()` modelled structurally:
each character lowercased. -/
def lowerString (s : String) : String :=
  ⟨s.data.map Char.toLower⟩

/-- A JSON-decoded JavaScript value as it can appear in a request-body
field parsed by express.json(). `undefined` models an absent field (property
access yields undefined). `arr n` is an array of `n` elements (its
`.length` is `n`); `obj l` is a plain object whose own numeric `length`
property, if any, is `l`. -/
inductive JSValue where
  | undefined
  | null
  | bool (b : Bool)
  | num (n : Int)
  | str (s : String)
  | arr (len : Nat)
  | obj (len : Option Int)
deriving DecidableEq, Repr

/-- JavaScript truthiness of a JSON-decoded value: undefined, null,
false, 0 and the empty string are falsy; arrays and objects are always
truthy. -/
def truthy : JSValue → Bool
  | .undefined => false
  | .null => false
  | .bool b => b
  | .num n => n != 0
  | .str s => s != ""
  | .arr _ => true
  | .obj _ => true

/-- The JavaScript call `v.trim()`: defined only on strings; on any
truthy non-string value the call raises a TypeError, modelled as
`.error ()`. -/
def jsTrim : JSValue → Except Unit String
  | .str s => .ok (trimString s)
  | _ => .error ()

/-- The JavaScript property read `v.length`: a number for strings,
arrays and objects carrying a numeric length property; `undefined`
otherwise (property access on a primitive never throws). -/
def jsLength : JSValue → JSValue
  | .str s => .num s.length
  | .arr n => .num n
  | .obj (some l) => .num l
  | _ => .undefined

/-- The JavaScript comparison `v > m` for a numeric literal `m`: true
exactly when `v` is a number greater than `m` (comparison with
`undefined` is false via NaN). -/
def jsGtNum : JSValue → Int → Bool
  | .num k, m => m < k
  | _, _ => false

/-- The JavaScript expression `a || b`: `a` when truthy, else `b`. -/
def jsOr (a b : JSValue) : JSValue :=
  if truthy a then a else b

/-- src/unnamed/part_000 lines 46-54, `toBoolean(value)`: booleans pass
through, a string coerces to whether it lowercases to "true", and every
other value coerces to false. -/
def toBoolean : JSValue → Bool
  | .bool b => b
  | .str s => lowerString s == "true"
  | _ => false

/-- A contact-form submission body: the fields `validateContactBody` and
the payload builder read. Each field is an arbitrary JSON value; `undefined`
is an absent field. -/
structure Body where
  honeypot : JSValue := .undefined
  name : JSValue := .undefined
  email : JSValue := .undefined
  subject : JSValue := .undefined
  message : JSValue := .undefined
  privacyConsent : JSValue := .undefined
  company : JSValue := .undefined
  phone : JSValue := .undefined
  whatsappConsent : JSValue := .undefined
  userAgent : JSValue := .undefined
  language : JSValue := .undefined
  timestamp : JSValue := .undefined
deriving DecidableEq, Repr

/-- The required-field test
`!body.x || typeof body.x !== 'string' || body.x.trim() === ''`
(src/unnamed/part_000 lines 67-81): fails for every non-string value and
for strings that are empty or whitespace only. The falsy check and the
typeof guard make the trim call safe here. -/
def missingField : JSValue → Bool
  | .str s => trimString s == ""
  | _ => true

/-- The `errors` array accumulated by the straight-line field checks of
`validateContactBody` after the honeypot gate (src/unnamed/part_000
lines 66-91), in push order: name, email, subject, message, privacy
consent, message length. -/
def requiredErrors (body : Body) : List String :=
  (if missingField body.name then ["Name is required"] else []) ++
  (if missingField body.email then ["Email is required"] else []) ++
  (if missingField body.subject then ["Subject is required"] else []) ++
  (if missingField body.message then ["Message is required"] else []) ++
  (if toBoolean body.privacyConsent ≠ true then ["Privacy consent is required"] else []) ++
  (if truthy body.message && jsGtNum (jsLength body.message) 5000
    then ["Message must be 5000 characters or less"] else [])

/-- The value of the `errors` property of a validation result: the raw
array on the spam path, the comma-joined string when field checks fail,
and null when the body is clean. -/
inductive ErrorsVal where
  | arr (reasons : List String)
  | str (s : String)
  | null
deriving DecidableEq, Repr

/-- The record `{ valid, errors }` returned by `validateContactBody`. -/
structure ValidationResult where
  valid : Bool
  errors : ErrorsVal
deriving DecidableEq, Repr

/-- The final return of `validateContactBody` (src/unnamed/part_000
lines 93-96): `valid` iff no errors accumulated; `errors` is the
comma-joined reason string, or null when empty. -/
def nonSpamResult (body : Body) : ValidationResult :=
  let errors := requiredErrors body
  { valid := errors.length == 0
    errors := if 0 < errors.length then .str (String.intercalate ", " errors) else .null }

/-- src/unnamed/part_000 lines 57-97, `validateContactBody(body)`: the
honeypot gate `if (body.honeypot && body.honeypot.trim() !== '')`
returns `{ valid: false, errors: ['Spam detected'] }` early; the trim
call throws (TypeError) when the honeypot is truthy but not a string;
otherwise the field checks of `requiredErrors` run and the joined result
is returned. -/
def validateContactBody (body : Body) : Except Unit ValidationResult :=
  if truthy body.honeypot then
    match jsTrim body.honeypot with
    | .error e => .error e
    | .ok t =>
      if t ≠ "" then .ok { valid := false, errors := .arr ["Spam detected"] }
      else .ok (nonSpamResult body)
  else .ok (nonSpamResult body)

/-- The payload record built for the downstream webhook
(src/unnamed/part_000 lines 141-158), in property insertion order. The
loosely typed fields keep their JavaScript value. -/
structure NormalizedPayload where
  name : String
  email : String
  subject : String
  message : String
  company : JSValue
  phone : JSValue
  whatsappConsent : Bool
  privacyConsent : Bool
  ip : String
  userAgent : JSValue
  language : JSValue
  timestamp : JSValue
  createdAt : String
deriving DecidableEq, Repr

/-- The optional-string pattern `body.x ? body.x.trim() : null` used for
company and phone: null when falsy, trimmed when truthy; the trim throws
on a truthy non-string. -/
def jsOptTrim (v : JSValue) : Except Unit JSValue :=
  if truthy v then
    match jsTrim v with
    | .ok t => .ok (.str t)
    | .error e => .error e
  else .ok .null

/-- The value of an HTTP request header: a string when present,
undefined when absent. -/
def headerValue : Option String → JSValue
  | some h => .str h
  | none => .undefined

/-- src/unnamed/part_000 lines 137-158: the payload construction of the
/contact handler, parameterised by the resolved client ip, the
user-agent request header and the server clock value
`new Date().toISOString()`. A trim on a truthy non-string field throws
and is caught by the handler's outer try as a server error. -/
def buildPayload (body : Body) (headerUA : Option String) (ip : String)
    (nowIso : String) : Except Unit NormalizedPayload :=
  match jsTrim body.name, jsTrim body.email, jsTrim body.subject,
      jsTrim body.message, jsOptTrim body.company, jsOptTrim body.phone with
  | .error _, _, _, _, _, _ => .error ()
  | _, .error _, _, _, _, _ => .error ()
  | _, _, .error _, _, _, _ => .error ()
  | _, _, _, .error _, _, _ => .error ()
  | _, _, _, _, .error _, _ => .error ()
  | _, _, _, _, _, .error _ => .error ()
  | .ok name, .ok email, .ok subject, .ok message, .ok company, .ok phone =>
    .ok
    { name := name
      email := email
      subject := subject
      message := message
      company := company
      phone := phone
      whatsappConsent := toBoolean body.whatsappConsent
      privacyConsent := toBoolean body.privacyConsent
      ip := ip
      userAgent := jsOr body.userAgent (jsOr (headerValue headerUA) .null)
      language := jsOr body.language .null
      timestamp := jsOr body.timestamp .null
      createdAt := nowIso }

/-- `JSON.stringify(payload)` at the level of key/value pairs: the
properties in insertion order, with undefined-valued properties omitted
(JSON.stringify drops them) and every other value serialised. -/
def serializePayload (p : NormalizedPayload) : List (String × JSValue) :=
  [("name", JSValue.str p.name), ("email", JSValue.str p.email),
   ("subject", JSValue.str p.subject), ("message", JSValue.str p.message),
   ("company", p.company), ("phone", p.phone),
   ("whatsappConsent", JSValue.bool p.whatsappConsent),
   ("privacyConsent", JSValue.bool p.privacyConsent),
   ("ip", JSValue.str p.ip), ("userAgent", p.userAgent),
   ("language", p.language), ("timestamp", p.timestamp),
   ("createdAt", JSValue.str p.createdAt)].filter
    (fun kv => kv.2 ≠ JSValue.undefined)

/-- The keys of the serialised payload in order. -/
def payloadKeys : List String :=
  ["name", "email", "subject", "message", "company", "phone",
   "whatsappConsent", "privacyConsent", "ip", "userAgent", "language",
   "timestamp", "createdAt"]

/-- The outcome of the single fetch to the downstream webhook: an HTTP
response with its status and body text, or a transport-level failure
(the rejection of the fetch promise). -/
inductive FetchResult where
  | response (status : Nat) (respBody : String)
  | networkError (cause : String)
deriving DecidableEq, Repr

/-- The fetch API's `response.ok`: status in the success range 200-299. -/
def responseOk (status : Nat) : Bool :=
  decide (200 ≤ status ∧ status < 300)

/-- A relay HTTP response: status code plus the JSON body
`{ ok, error? }` (error absent in the success body `{ ok: true }`). -/
structure HttpResponse where
  status : Nat
  ok : Bool
  error : Option ErrorsVal
deriving DecidableEq, Repr

/-- src/unnamed/part_000 lines 168-190: mapping the fetch outcome to the
relay's response — `!response.ok` and a thrown fetch error both produce
500 with the fixed opaque "n8n error" body (the downstream status and
body text are only logged); a success-range status produces
`{ ok: true }`. -/
def forwardResponse : FetchResult → HttpResponse
  | .response status _ =>
    if responseOk status then { status := 200, ok := true, error := none }
    else { status := 500, ok := false, error := some (.str "n8n error") }
  | .networkError _ =>
    { status := 500, ok := false, error := some (.str "n8n error") }

/-- Per-identity window state of the rate limiter: the window anchor
time (ms) and the number of requests counted in the window. -/
structure WindowEntry where
  windowStart : Nat
  count : Nat
deriving DecidableEq, Repr

/-- The limiter's identity-keyed store, an association list. -/
abbrev LimiterState : Type := List (String × WindowEntry)

/-- Look up the window entry of an identity. -/
def lookupEntry : LimiterState → String → Option WindowEntry
  | [], _ => none
  | (k, v) :: rest, id => if k = id then some v else lookupEntry rest id

/-- Replace (or insert) the window entry of an identity. -/
def setEntry : LimiterState → String → WindowEntry → LimiterState
  | [], id, e => [(id, e)]
  | (k, v) :: rest, id, e =>
    if k = id then (id, e) :: rest else (k, v) :: setEntry rest id e

/-- The configured window length: `windowMs: 60 * 1000`
(src/unnamed/part_000 line 101). -/
def windowMs : Nat := 60 * 1000

/-- The configured admission budget: `max: 3` (src/unnamed/part_000
line 102). -/
def maxPerWindow : Nat := 3

/-- Modelled from the spec: the fixed-window admission check of the
express-rate-limit middleware configured as `contactRateLimiter`
(src/unnamed/part_000 lines 100-122) — the library itself is not in
src/. Per spec section 4.3: a per-identity window anchored at that
identity's first request of the current window; at most 3 admitted
requests per window; later requests in the same window are denied and do
not disturb the stored state of any identity. -/
def rateLimitCheck (st : LimiterState) (id : String) (now : Nat) :
    LimiterState × Bool :=
  match lookupEntry st id with
  | none => (setEntry st id { windowStart := now, count := 1 }, true)
  | some e =>
    if e.windowStart + windowMs ≤ now then
      (setEntry st id { windowStart := now, count := 1 }, true)
    else if e.count < maxPerWindow then
      (setEntry st id { windowStart := e.windowStart, count := e.count + 1 }, true)
    else (st, false)

/-- src/unnamed/part_000 lines 129-195: the POST /contact pipeline for
one request — admission check first (a denied request is answered 429 by
the limiter's handler and never reaches the validator), then validation
(400 with the errors value when invalid, 500 "Server error" when the
validator or the payload construction throws), then the single forward
attempt classified by `forwardResponse`. Returns the updated limiter
state and the relay's response. -/
def handleContact (st : LimiterState) (id : String) (now : Nat)
    (body : Body) (headerUA : Option String) (nowIso : String)
    (fwd : FetchResult) : LimiterState × HttpResponse :=
  let checked := rateLimitCheck st id now
  if checked.2 then
    match validateContactBody body with
    | .error _ =>
      (checked.1, { status := 500, ok := false, error := some (.str "Server error") })
    | .ok v =>
      if v.valid then
        match buildPayload body headerUA id nowIso with
        | .error _ =>
          (checked.1, { status := 500, ok := false, error := some (.str "Server error") })
        | .ok _ => (checked.1, forwardResponse fwd)
      else (checked.1, { status := 400, ok := false, error := some v.errors })
  else
    (checked.1,
     { status := 429, ok := false,
       error := some (.str "Too many requests, please try again later") })

/-!
Theorems. First the concrete behaviour of the embedded code on small
inputs, then shared lemmas, then one theorem per specification claim.
-/

example : validateContactBody { honeypot := .str "bot" } =
    .ok { valid := false, errors := .arr ["Spam detected"] } := by decide

example : validateContactBody { honeypot := .num 1 } = .error () := by decide

example : validateContactBody
    { name := .str "a", email := .str "b", subject := .str "c",
      message := .str "d", privacyConsent := .str "TRUE" } =
    .ok { valid := true, errors := .null } := by decide

example : validateContactBody { name := .str "a" } =
    .ok { valid := false,
          errors := .str "Email is required, Subject is required, Message is required, Privacy consent is required" } := by
  decide

example :
    handleContact [] "1.2.3.4" 0
      { name := .str "a", email := .str "b", subject := .str "c",
        message := .str "d", privacyConsent := .bool true }
      none "2026-01-01T00:00:00.000Z" (.response 503 "secret downstream body") =
    ([("1.2.3.4", { windowStart := 0, count := 1 })],
     { status := 500, ok := false, error := some (.str "n8n error") }) := by
  decide

/-- Membership in a conditional singleton block of the error list. -/
theorem mem_ite_singleton {α : Type} {c : Prop} [Decidable c] {r a : α} :
    (r ∈ if c then [a] else ([] : List α)) ↔ c ∧ r = a := by
  split <;> simp_all

/-- Membership in the accumulated error list, check by check. -/
theorem mem_requiredErrors (body : Body) (r : String) :
    r ∈ requiredErrors body ↔
      (missingField body.name = true ∧ r = "Name is required") ∨
      (missingField body.email = true ∧ r = "Email is required") ∨
      (missingField body.subject = true ∧ r = "Subject is required") ∨
      (missingField body.message = true ∧ r = "Message is required") ∨
      (toBoolean body.privacyConsent ≠ true ∧ r = "Privacy consent is required") ∨
      ((truthy body.message && jsGtNum (jsLength body.message) 5000) = true ∧
        r = "Message must be 5000 characters or less") := by
  simp only [requiredErrors, List.mem_append, mem_ite_singleton]
  tauto

/-- Characterisation of the values `toBoolean` coerces to true. -/
theorem toBoolean_true_iff (v : JSValue) :
    toBoolean v = true ↔
      (v = .bool true ∨ ∃ s, v = .str s ∧ lowerString s = "true") := by
  cases v <;> simp [toBoolean]

/-- C1: the validator accepts the privacyConsent field (appends no
"Privacy consent is required" reason in its field-check pass) exactly
when the field is boolean true or a string that lowercases to "true";
every other value — the string "false", the number 1, an absent field —
draws the reason. -/
theorem privacy_consent_rule (body : Body) :
    "Privacy consent is required" ∉ requiredErrors body ↔
      (body.privacyConsent = .bool true ∨
        ∃ s, body.privacyConsent = .str s ∧ lowerString s = "true") := by
  rw [← toBoolean_true_iff, mem_requiredErrors]
  simp

example : "Privacy consent is required" ∈
    requiredErrors { privacyConsent := .str "false" } := by decide

example : "Privacy consent is required" ∈
    requiredErrors { privacyConsent := .num 1 } := by decide

example : "Privacy consent is required" ∉
    requiredErrors { privacyConsent := .str "TRUE" } := by decide

/-- The message length condition evaluated at a string value. -/
theorem lengthCond_str (s : String) :
    (truthy (.str s) && jsGtNum (jsLength (.str s)) 5000) = true ↔
      5000 < s.length := by
  simp only [truthy, jsLength, jsGtNum, Bool.and_eq_true, bne_iff_ne, ne_eq,
    decide_eq_true_eq]
  constructor
  · rintro ⟨-, h2⟩
    exact_mod_cast h2
  · intro h
    refine ⟨fun he => ?_, by exact_mod_cast h⟩
    rw [he] at h
    simp at h

/-- C6: for a string message, the length reason is reported exactly when
the string is longer than 5000 characters; a 5000-character message is
accepted, a 5001-character one rejected. -/
theorem message_length_rule (body : Body) (s : String)
    (h : body.message = .str s) :
    "Message must be 5000 characters or less" ∈ requiredErrors body ↔
      5000 < s.length := by
  rw [mem_requiredErrors, h]
  rw [← lengthCond_str s]
  simp

/-- Witness for C6 at the concrete message "hi". -/
theorem message_length_rule_witness :
    ("Message must be 5000 characters or less" ∈
        requiredErrors { message := .str "hi" } ↔ 5000 < ("hi" : String).length) :=
  message_length_rule { message := .str "hi" } "hi" rfl

/-- A concrete body whose message is a JSON array of 5001 elements. -/
def cexBodyC8 : Body := { message := .arr 5001 }

/-- C8 counterexample: the claim that "Message is required" and
"Message must be 5000 characters or less" never co-occur is false — a
message that is a JSON array of 5001 elements fails the string presence
check and also has length greater than 5000, so both reasons appear. -/
theorem message_reasons_cooccur_cex :
    "Message is required" ∈ requiredErrors cexBodyC8 ∧
      "Message must be 5000 characters or less" ∈ requiredErrors cexBodyC8 := by
  decide

/-- C8 (amended): the two message reasons co-occur exactly when the
message is a whitespace-only string longer than 5000 characters, an
array of more than 5000 elements, or an object whose numeric length
property exceeds 5000; for every other message — in particular every
absent message and every string that is empty or has a non-whitespace
character — they are mutually exclusive. -/
theorem message_reasons_cooccur_iff (body : Body) :
    ("Message is required" ∈ requiredErrors body ∧
      "Message must be 5000 characters or less" ∈ requiredErrors body) ↔
      ((∃ s, body.message = .str s ∧ trimString s = "" ∧ 5000 < s.length) ∨
       (∃ n, body.message = .arr n ∧ 5000 < n) ∨
       (∃ l, body.message = .obj (some l) ∧ (5000 : Int) < l)) := by
  rw [mem_requiredErrors, mem_requiredErrors]
  cases hm : body.message with
  | str s =>
    rw [show (truthy (JSValue.str s) && jsGtNum (jsLength (JSValue.str s)) 5000) =
        decide (5000 < s.length) from by
      rcases Bool.dichotomy (decide (5000 < s.length)) with hd | hd <;>
        rw [hd] <;> simp only [decide_eq_true_eq, decide_eq_false_iff_not] at hd
      · rw [Bool.eq_false_iff, ne_eq, lengthCond_str]
        exact hd
      · rw [lengthCond_str]
        exact hd]
    simp [missingField]
  | obj l =>
    cases l <;> simp [missingField, truthy, jsLength, jsGtNum]
  | _ => simp [missingField, truthy, jsLength, jsGtNum]

/-- A concrete submission with a filled honeypot and failures in every
other check. -/
def cexBodyC2 : Body := { honeypot := .str "bot" }

/-- C2 counterexample: for a body whose honeypot trims to the non-empty
"bot", the validator does return a single-reason list, but the reason is
"Spam detected" with a capital S, not the "spam detected" the claim
states, so the claimed result value is not produced. -/
theorem spam_reason_cex :
    trimString "bot" ≠ "" ∧
      validateContactBody cexBodyC2 ≠
        .ok { valid := false, errors := .arr ["spam detected"] } ∧
      validateContactBody cexBodyC2 =
        .ok { valid := false, errors := .arr ["Spam detected"] } := by
  decide

/-- C2 (amended): for every body whose honeypot is a string that is
non-empty after trimming, validation short-circuits to the single reason
list ["Spam detected"], regardless of every other field, and no other
check contributes a reason. -/
theorem honeypot_short_circuit (body : Body) (s : String)
    (hh : body.honeypot = .str s) (hs : trimString s ≠ "") :
    validateContactBody body =
      .ok { valid := false, errors := .arr ["Spam detected"] } := by
  have hne : s ≠ "" := by
    rintro rfl
    exact hs rfl
  unfold validateContactBody
  rw [hh]
  simp [truthy, jsTrim, hne, hs]

/-- Witness for the amended C2 at the concrete honeypot "bot", with the
other checks all failing. -/
theorem honeypot_short_circuit_witness :
    validateContactBody cexBodyC2 =
      .ok { valid := false, errors := .arr ["Spam detected"] } :=
  honeypot_short_circuit cexBodyC2 "bot" rfl (by decide)

/-- A concrete submission that passes every field check but carries the
number 1 in the honeypot field. -/
def cexBodyC3 : Body :=
  { honeypot := .num 1, name := .str "a", email := .str "b",
    subject := .str "c", message := .str "d", privacyConsent := .bool true }

/-- C3 counterexample: the validator is not total — on a body whose
honeypot is the number 1 (truthy but not a string) the call
`body.honeypot.trim()` raises a TypeError instead of returning a
ValidationResult, modelled as `.error ()`. -/
theorem validator_throws_cex : validateContactBody cexBodyC3 = .error () := by
  decide

/-- A honeypot value on which the validator's trim call cannot throw:
falsy, or a string. -/
def honeypotSafe (body : Body) : Prop :=
  truthy body.honeypot = false ∨ ∃ s, body.honeypot = .str s

/-- Shape of the non-spam result: valid with null errors, or invalid
with the comma-joined string of a non-empty reason list. -/
theorem nonSpamResult_shape (body : Body) :
    ((nonSpamResult body).valid = true ∧ (nonSpamResult body).errors = .null) ∨
    ((nonSpamResult body).valid = false ∧ ∃ l, l ≠ [] ∧
      (nonSpamResult body).errors = .str (String.intercalate ", " l)) := by
  cases he : requiredErrors body with
  | nil =>
    left
    simp [nonSpamResult, he]
  | cons a l =>
    right
    refine ⟨by simp [nonSpamResult, he], a :: l, by simp, ?_⟩
    simp [nonSpamResult, he]

/-- Under a safe honeypot, the validator returns either the non-spam
field-check result or the spam result. -/
theorem validate_of_honeypotSafe (body : Body) (h : honeypotSafe body) :
    validateContactBody body = .ok (nonSpamResult body) ∨
      validateContactBody body =
        .ok { valid := false, errors := .arr ["Spam detected"] } := by
  rcases h with ht | ⟨s, hs⟩
  · left
    simp [validateContactBody, ht]
  · by_cases hne : s = ""
    · left
      rw [validateContactBody, hs, hne]
      simp [truthy]
    · by_cases htr : trimString s = ""
      · left
        rw [validateContactBody, hs]
        simp [truthy, hne, jsTrim, htr]
      · right
        exact honeypot_short_circuit body s hs htr

/-- C3 (amended): the validator is pure and total on every body whose
honeypot is falsy or a string — there it never throws and returns a
ValidationResult that is either valid with null errors or invalid with a
non-empty reason list; totality fails only for a truthy non-string
honeypot (the counterexample). -/
theorem validator_total_amended (body : Body) (h : honeypotSafe body) :
    ∃ r, validateContactBody body = .ok r ∧
      (r.valid = true → r.errors = .null) ∧
      (r.valid = false →
        r.errors = .arr ["Spam detected"] ∨
          ∃ l, l ≠ [] ∧ r.errors = .str (String.intercalate ", " l)) := by
  rcases validate_of_honeypotSafe body h with h1 | h1
  · refine ⟨nonSpamResult body, h1, ?_, ?_⟩
    · intro hv
      rcases nonSpamResult_shape body with ⟨_, he⟩ | ⟨hv', _⟩
      · exact he
      · rw [hv] at hv'
        cases hv'
    · intro hv
      rcases nonSpamResult_shape body with ⟨hv', _⟩ | ⟨_, l, hl, he⟩
      · rw [hv] at hv'
        cases hv'
      · exact Or.inr ⟨l, hl, he⟩
  · exact ⟨_, h1, fun hv => by simp at hv, fun _ => Or.inl rfl⟩

/-- Witness for the amended C3 at a concrete body with an absent
honeypot and several failing checks. -/
theorem validator_total_amended_witness :
    ∃ r, validateContactBody { name := .str "a" } = .ok r ∧
      (r.valid = true → r.errors = .null) ∧
      (r.valid = false →
        r.errors = .arr ["Spam detected"] ∨
          ∃ l, l ≠ [] ∧ r.errors = .str (String.intercalate ", " l)) :=
  validator_total_amended { name := .str "a" } (Or.inl rfl)

/-- C10: the validator reads only the honeypot, name, email, subject,
message and privacyConsent fields — two bodies agreeing on those six
fields produce identical validation results (same validity, same errors
value, same thrown-ness), whatever their optional fields hold. -/
theorem validation_reads_six_fields (b1 b2 : Body)
    (hh : b1.honeypot = b2.honeypot) (hn : b1.name = b2.name)
    (he : b1.email = b2.email) (hs : b1.subject = b2.subject)
    (hm : b1.message = b2.message)
    (hp : b1.privacyConsent = b2.privacyConsent) :
    validateContactBody b1 = validateContactBody b2 := by
  unfold validateContactBody nonSpamResult requiredErrors
  rw [hh, hn, he, hs, hm, hp]

/-- Witness for C10: two bodies that differ in company, phone,
whatsappConsent, userAgent, language and timestamp validate alike. -/
theorem validation_reads_six_fields_witness :
    validateContactBody
        { name := .str "a", company := .str "ACME", phone := .str "1",
          whatsappConsent := .bool true, userAgent := .str "UA",
          language := .str "de", timestamp := .str "t" } =
      validateContactBody
        { name := .str "a", company := .num 7, phone := .null } :=
  validation_reads_six_fields _ _ rfl rfl rfl rfl rfl rfl

/-- The fixed order in which the validator pushes reasons: name, email,
subject, message, consent, length. -/
def reasonOrder : List String :=
  ["Name is required", "Email is required", "Subject is required",
   "Message is required", "Privacy consent is required",
   "Message must be 5000 characters or less"]

/-- The accumulated reasons always form a subsequence of the fixed
reason order. -/
theorem requiredErrors_sublist (body : Body) :
    (requiredErrors body).Sublist reasonOrder := by
  unfold requiredErrors reasonOrder
  split_ifs <;> decide

/-- A honeypot that does not trigger the spam branch: falsy, or a string
that trims to empty. -/
def honeypotClear (body : Body) : Prop :=
  truthy body.honeypot = false ∨
    ∃ s, body.honeypot = .str s ∧ trimString s = ""

/-- With a clear honeypot the validator runs the field checks and joins
their reasons. -/
theorem validate_of_honeypotClear (body : Body) (h : honeypotClear body) :
    validateContactBody body = .ok (nonSpamResult body) := by
  rcases h with ht | ⟨s, hs, htr⟩
  · simp [validateContactBody, ht]
  · by_cases hne : s = ""
    · rw [validateContactBody, hs, hne]
      simp [truthy]
    · rw [validateContactBody, hs]
      simp [truthy, hne, jsTrim, htr]

/-- C7: with an empty honeypot, a missing (absent) name, email, subject
or message each contributes its reason to the error list; the list is
always a subsequence of the fixed order name, email, subject, message,
consent, length; and whenever any check fails, the validator returns
invalid with exactly those reasons joined by ", " in that order. -/
theorem required_reasons_order (body : Body) (h : honeypotClear body) :
    (body.name = .undefined → "Name is required" ∈ requiredErrors body) ∧
    (body.email = .undefined → "Email is required" ∈ requiredErrors body) ∧
    (body.subject = .undefined → "Subject is required" ∈ requiredErrors body) ∧
    (body.message = .undefined → "Message is required" ∈ requiredErrors body) ∧
    (requiredErrors body).Sublist reasonOrder ∧
    (requiredErrors body ≠ [] →
      validateContactBody body =
        .ok { valid := false,
              errors := .str (String.intercalate ", " (requiredErrors body)) }) := by
  refine ⟨?_, ?_, ?_, ?_, requiredErrors_sublist body, ?_⟩
  · intro hn
    rw [mem_requiredErrors]
    exact Or.inl ⟨by rw [hn]; rfl, rfl⟩
  · intro hn
    rw [mem_requiredErrors]
    exact Or.inr (Or.inl ⟨by rw [hn]; rfl, rfl⟩)
  · intro hn
    rw [mem_requiredErrors]
    exact Or.inr (Or.inr (Or.inl ⟨by rw [hn]; rfl, rfl⟩))
  · intro hn
    rw [mem_requiredErrors]
    exact Or.inr (Or.inr (Or.inr (Or.inl ⟨by rw [hn]; rfl, rfl⟩)))
  · intro hne
    rw [validate_of_honeypotClear body h]
    cases he : requiredErrors body with
    | nil => exact absurd he hne
    | cons a l => simp [nonSpamResult, he]

/-- Witness for C7 at the empty body: every required field absent, every
reason present, joined in the fixed order. -/
theorem required_reasons_order_witness :
    (({} : Body).name = .undefined → "Name is required" ∈ requiredErrors {}) ∧
    (({} : Body).email = .undefined → "Email is required" ∈ requiredErrors {}) ∧
    (({} : Body).subject = .undefined → "Subject is required" ∈ requiredErrors {}) ∧
    (({} : Body).message = .undefined → "Message is required" ∈ requiredErrors {}) ∧
    (requiredErrors {}).Sublist reasonOrder ∧
    (requiredErrors {} ≠ [] →
      validateContactBody {} =
        .ok { valid := false,
              errors := .str (String.intercalate ", " (requiredErrors {})) }) :=
  required_reasons_order {} (Or.inl rfl)

/-- A truthy value is not undefined. -/
theorem truthy_ne_undef {v : JSValue} (h : truthy v = true) : v ≠ .undefined := by
  rintro rfl
  simp [truthy] at h

/-- `a || b` is not undefined when `b` is not. -/
theorem jsOr_ne_undef (a b : JSValue) (hb : b ≠ .undefined) : jsOr a b ≠ .undefined := by
  unfold jsOr
  split
  next h => exact truthy_ne_undef h
  next => exact hb

/-- A successful optional trim never yields undefined. -/
theorem jsOptTrim_ne_undef {v w : JSValue} (h : jsOptTrim v = .ok w) :
    w ≠ .undefined := by
  unfold jsOptTrim at h
  split at h
  · split at h
    · cases h
      simp
    · cases h
  · cases h
    simp

/-- An absent optional field trims to the explicit null. -/
theorem jsOptTrim_undef : jsOptTrim .undefined = .ok .null := rfl

/-- Every payload whose loose fields are not undefined serialises with
the complete fixed key list — JSON.stringify omits no key. -/
theorem serializePayload_keys (p : NormalizedPayload)
    (hc : p.company ≠ .undefined) (hph : p.phone ≠ .undefined)
    (hu : p.userAgent ≠ .undefined) (hl : p.language ≠ .undefined)
    (ht : p.timestamp ≠ .undefined) :
    (serializePayload p).map Prod.fst = payloadKeys := by
  simp [serializePayload, payloadKeys, List.filter, hc, hph, hu, hl, ht]

/-- C4: for every valid submission whose payload construction succeeds,
the serialised body carries every one of the thirteen payload keys in
order — no optional key is omitted — and each optional field the client
did not supply (company, phone, language, timestamp, and userAgent when
the request also has no user-agent header) is serialised as an explicit
null. -/
theorem payload_serialization_complete (body : Body) (hua : Option String)
    (ip nowIso : String) (p : NormalizedPayload) (r : ValidationResult)
    (_hv : validateContactBody body = .ok r) (_hvalid : r.valid = true)
    (hp : buildPayload body hua ip nowIso = .ok p) :
    (serializePayload p).map Prod.fst = payloadKeys ∧
    (body.company = .undefined → ("company", JSValue.null) ∈ serializePayload p) ∧
    (body.phone = .undefined → ("phone", JSValue.null) ∈ serializePayload p) ∧
    (body.language = .undefined → ("language", JSValue.null) ∈ serializePayload p) ∧
    (body.timestamp = .undefined → ("timestamp", JSValue.null) ∈ serializePayload p) ∧
    (body.userAgent = .undefined → hua = none →
      ("userAgent", JSValue.null) ∈ serializePayload p) := by
  unfold buildPayload at hp
  split at hp <;> try cases hp
  rename_i name email subject message company phone h1 h2 h3 h4 h5 h6
  have hcomp := jsOptTrim_ne_undef h5
  have hphone := jsOptTrim_ne_undef h6
  refine ⟨?_, ?_, ?_, ?_, ?_, ?_⟩
  · exact serializePayload_keys _ hcomp hphone
      (jsOr_ne_undef _ _ (jsOr_ne_undef _ _ (by simp))) (jsOr_ne_undef _ _ (by simp))
      (jsOr_ne_undef _ _ (by simp))
  · intro hb
    rw [hb, jsOptTrim_undef] at h5
    cases h5
    simp [serializePayload, hcomp, hphone]
  · intro hb
    rw [hb, jsOptTrim_undef] at h6
    cases h6
    simp [serializePayload, hcomp, hphone]
  · intro hb
    simp [serializePayload, hb, jsOr, truthy]
  · intro hb
    simp [serializePayload, hb, jsOr, truthy]
  · intro hb hh
    simp [serializePayload, hb, hh, jsOr, truthy, headerValue]

/-- A concrete valid submission with no optional fields. -/
def witBodyC4 : Body :=
  { name := .str "a", email := .str "b", subject := .str "c",
    message := .str "d", privacyConsent := .bool true }

/-- The payload built from `witBodyC4` with no user-agent header. -/
def witPayloadC4 : NormalizedPayload :=
  { name := "a", email := "b", subject := "c", message := "d",
    company := .null, phone := .null, whatsappConsent := false,
    privacyConsent := true, ip := "8.8.8.8", userAgent := .null,
    language := .null, timestamp := .null,
    createdAt := "2026-01-01T00:00:00.000Z" }

/-- Witness for C4 at a concrete valid submission. -/
theorem payload_serialization_complete_witness :
    (serializePayload witPayloadC4).map Prod.fst = payloadKeys ∧
    (witBodyC4.company = .undefined →
      ("company", JSValue.null) ∈ serializePayload witPayloadC4) ∧
    (witBodyC4.phone = .undefined →
      ("phone", JSValue.null) ∈ serializePayload witPayloadC4) ∧
    (witBodyC4.language = .undefined →
      ("language", JSValue.null) ∈ serializePayload witPayloadC4) ∧
    (witBodyC4.timestamp = .undefined →
      ("timestamp", JSValue.null) ∈ serializePayload witPayloadC4) ∧
    (witBodyC4.userAgent = .undefined → (none : Option String) = none →
      ("userAgent", JSValue.null) ∈ serializePayload witPayloadC4) :=
  payload_serialization_complete witBodyC4 none "8.8.8.8"
    "2026-01-01T00:00:00.000Z" witPayloadC4 { valid := true, errors := .null }
    (by decide) rfl (by decide)

/-- Updating an identity's entry makes it the one looked up. -/
theorem lookup_set_self (st : LimiterState) (id : String) (e : WindowEntry) :
    lookupEntry (setEntry st id e) id = some e := by
  induction st with
  | nil => simp [setEntry, lookupEntry]
  | cons kv rest ih =>
    obtain ⟨k, v⟩ := kv
    by_cases hk : k = id
    · simp [setEntry, lookupEntry, hk]
    · simp [setEntry, lookupEntry, hk, ih]

/-- The first request of a fresh identity is admitted and anchors the
window. -/
theorem rateLimit_fresh (st : LimiterState) (id : String) (t : Nat)
    (hfresh : lookupEntry st id = none) :
    rateLimitCheck st id t =
      (setEntry st id { windowStart := t, count := 1 }, true) := by
  simp [rateLimitCheck, hfresh]

/-- A request inside an identity's open window with budget left is
admitted and counted. -/
theorem rateLimit_step (st : LimiterState) (id : String) (t0 c t : Nat)
    (hl : lookupEntry st id = some { windowStart := t0, count := c })
    (hw : t < t0 + windowMs) (hc : c < maxPerWindow) :
    rateLimitCheck st id t =
      (setEntry st id { windowStart := t0, count := c + 1 }, true) := by
  simp only [rateLimitCheck, hl]
  rw [if_neg (by omega), if_pos hc]

/-- A request inside an identity's exhausted window is denied and leaves
the store untouched. -/
theorem rateLimit_deny (st : LimiterState) (id : String) (t0 t : Nat)
    (hl : lookupEntry st id = some { windowStart := t0, count := maxPerWindow })
    (hw : t < t0 + windowMs) :
    rateLimitCheck st id t = (st, false) := by
  simp only [rateLimitCheck, hl]
  rw [if_neg (by omega), if_neg (by omega)]

/-- C5: for a fresh identity, three requests inside one 60-second window
are all admitted through to validation, and the fourth request in the
same window — whatever its body — is answered 429 with the fixed
"Too many requests, please try again later" error, without the limiter
state changing and without the validator influencing the response. -/
theorem rate_limit_three_then_deny (st0 : LimiterState) (id : String)
    (t1 t2 t3 t4 : Nat) (hfresh : lookupEntry st0 id = none)
    (_h12 : t1 ≤ t2) (h23 : t2 ≤ t3) (h34 : t3 ≤ t4)
    (hw : t4 < t1 + windowMs) (b4 : Body) (hua : Option String)
    (nowIso : String) (fwd : FetchResult) :
    (rateLimitCheck st0 id t1).2 = true ∧
    (rateLimitCheck (rateLimitCheck st0 id t1).1 id t2).2 = true ∧
    (rateLimitCheck (rateLimitCheck (rateLimitCheck st0 id t1).1 id t2).1
        id t3).2 = true ∧
    handleContact
        (rateLimitCheck (rateLimitCheck (rateLimitCheck st0 id t1).1 id t2).1
          id t3).1 id t4 b4 hua nowIso fwd =
      ((rateLimitCheck (rateLimitCheck (rateLimitCheck st0 id t1).1 id t2).1
          id t3).1,
       { status := 429, ok := false,
         error := some (.str "Too many requests, please try again later") }) := by
  have e1 := rateLimit_fresh st0 id t1 hfresh
  have e2 := rateLimit_step (setEntry st0 id { windowStart := t1, count := 1 })
    id t1 1 t2 (lookup_set_self _ _ _) (by omega) (by simp [maxPerWindow])
  have e3 := rateLimit_step
    (setEntry (setEntry st0 id { windowStart := t1, count := 1 }) id
      { windowStart := t1, count := 2 })
    id t1 2 t3 (lookup_set_self _ _ _) (by omega) (by simp [maxPerWindow])
  have e4 := rateLimit_deny
    (setEntry (setEntry (setEntry st0 id { windowStart := t1, count := 1 }) id
      { windowStart := t1, count := 2 }) id { windowStart := t1, count := 3 })
    id t1 t4 (lookup_set_self _ _ _) (by omega)
  refine ⟨?_, ?_, ?_, ?_⟩ <;>
    simp [handleContact, e1, e2, e3, e4]

/-- Witness for C5: four immediate requests from one address; the fourth
is denied with the 429 body. -/
theorem rate_limit_three_then_deny_witness :
    (rateLimitCheck [] "9.9.9.9" 0).2 = true ∧
    (rateLimitCheck (rateLimitCheck [] "9.9.9.9" 0).1 "9.9.9.9" 1).2 = true ∧
    (rateLimitCheck (rateLimitCheck (rateLimitCheck [] "9.9.9.9" 0).1
        "9.9.9.9" 1).1 "9.9.9.9" 2).2 = true ∧
    handleContact
        (rateLimitCheck (rateLimitCheck (rateLimitCheck [] "9.9.9.9" 0).1
          "9.9.9.9" 1).1 "9.9.9.9" 2).1 "9.9.9.9" 3 {} none "t"
        (.response 200 "") =
      ((rateLimitCheck (rateLimitCheck (rateLimitCheck [] "9.9.9.9" 0).1
          "9.9.9.9" 1).1 "9.9.9.9" 2).1,
       { status := 429, ok := false,
         error := some (.str "Too many requests, please try again later") }) :=
  rate_limit_three_then_deny [] "9.9.9.9" 0 1 2 3 rfl (by omega) (by omega)
    (by omega) (by decide) {} none "t" (.response 200 "")

/-- The failure classification of a fetch outcome: a response outside
the success range, or a transport error. -/
def fetchFailed : FetchResult → Bool
  | .response status _ => !responseOk status
  | .networkError _ => true

/-- C9: whenever an admitted, valid submission's forward attempt fails —
the downstream answers with a non-success status (however its body
reads) or the transport fails — the relay answers exactly
500 `{ ok: false, error: "n8n error" }`: a constant response, so the
downstream's status and body text never reach the caller. -/
theorem forward_failure_opaque (st : LimiterState) (id : String) (now : Nat)
    (body : Body) (hua : Option String) (nowIso : String) (fwd : FetchResult)
    (r : ValidationResult) (p : NormalizedPayload)
    (hadm : (rateLimitCheck st id now).2 = true)
    (hv : validateContactBody body = .ok r) (hvalid : r.valid = true)
    (hp : buildPayload body hua id nowIso = .ok p)
    (hfail : fetchFailed fwd = true) :
    (handleContact st id now body hua nowIso fwd).2 =
      { status := 500, ok := false, error := some (.str "n8n error") } := by
  unfold handleContact
  simp only [hadm, hv, hvalid, hp, if_true, ite_true]
  cases fwd with
  | response status respBody =>
    simp only [fetchFailed, Bool.not_eq_true'] at hfail
    simp [forwardResponse, hfail]
  | networkError cause => simp [forwardResponse]

/-- Witness for C9: a concrete valid submission forwarded to a
downstream that answers 503 with a secret body; the relay answers the
opaque 500. -/
theorem forward_failure_opaque_witness :
    (handleContact [] "8.8.8.8" 0 witBodyC4 none "2026-01-01T00:00:00.000Z"
        (.response 503 "secret downstream body")).2 =
      { status := 500, ok := false, error := some (.str "n8n error") } :=
  forward_failure_opaque [] "8.8.8.8" 0 witBodyC4 none
    "2026-01-01T00:00:00.000Z" (.response 503 "secret downstream body")
    { valid := true, errors := .null } witPayloadC4 rfl (by decide) rfl
    (by decide) (by decide)

end Proxy2AM
